import Mathlib

/-!
Shallow embedding of the Socratic tutoring server state machine
(`server/server.js` of the socratixx repository): session state,
scaffold escalation, assertion ledger, consistency scoring,
contradiction detection, curriculum gap map, and the HTTP boundary
operations, together with theorems settling the specification claims.
-/

set_option maxRecDepth 4000

namespace Socratix

/-- A node of the thought-process graph (`addToThoughtProcess`). -/
structure ThoughtNode where
  id : String
  text : String
  depth : Nat
  timestamp : Nat
deriving Repr, DecidableEq

/-- An edge of the thought-process graph. -/
structure ThoughtConnection where
  from_ : String
  to_ : String
deriving Repr, DecidableEq

/-- A conversation-history entry (`addToConversationHistory`). -/
structure ChatMsg where
  role : String
  content : String
  timestamp : Nat
deriving Repr, DecidableEq

/-- A recorded high-confidence assertion (`recordAssertion`). -/
structure Assertion where
  id : String
  statement : String
  nodeId : String
  confidence : Int
  timestamp : Nat
  foundational : Bool
deriving Repr, DecidableEq

/-- A detected contradiction record (`detectContradiction`). -/
structure Contradiction where
  id : String
  new_ : String
  conflictsWith : List String
  detected_at : Nat
deriving Repr, DecidableEq

/-- A detected misconception record (`detectMisconception`). -/
structure Misconception where
  id : String
  answer : String
  context : List ChatMsg
  type_ : String
  severity : String
  detected_at : Nat
  resolved : Bool
deriving Repr, DecidableEq

/-- A curriculum step of `SOLUTION_PATHS.default`. -/
structure PathStep where
  step : Nat
  name : String
  description : String
deriving Repr, DecidableEq

/-- One row of the knowledge-gap map (`generateKnowledgeGapMap`). -/
structure GapEntry where
  step : String
  status : String
  confidence : Int
deriving Repr, DecidableEq

/-- The mutable session record `socraticState` of the server.  Fields that no
modelled operation ever reads or conditionally writes (`prerequisites`,
`pathGatekeepers`, `errorLog`, `scaffoldingLevels`, `questionDiversity`,
`loopDetectionThreshold`, `currentZPDLevel`) are omitted. -/
structure SocraticState where
  topic : Option String
  userAnswers : List String
  thoughtNodes : List ThoughtNode
  thoughtConnections : List ThoughtConnection
  conversationHistory : List ChatMsg
  questionDepth : Nat
  currentQuestion : Option String
  solutionPath : List PathStep
  currentPathStep : Nat
  misconceptions : List Misconception
  calibrationQuestions : List String
  baselineKnowledgeLevel : Option String
  currentScaffoldLevel : Nat
  assertions : List Assertion
  provenNodes : List String
  consistencyScore : Int
  contradictions : List Contradiction
  synthesisMemo : Option String
  questionSequence : List String
  sessionPhase : String
  knowledgeGapMap : Option (List GapEntry)
deriving Repr, DecidableEq

/-- The fixed six-step curriculum `SOLUTION_PATHS.default`. -/
def SOLUTION_PATHS_default : List PathStep :=
  [ ⟨1, "Foundation", "Understanding basic definitions and core concepts"⟩,
    ⟨2, "Building Blocks", "Connecting components and relationships"⟩,
    ⟨3, "Application", "Applying concepts to real scenarios"⟩,
    ⟨4, "Edge Cases", "Handling boundary conditions and exceptions"⟩,
    ⟨5, "Synthesis", "Integrating knowledge into a coherent model"⟩,
    ⟨6, "Mastery", "Teaching the concept to others without scaffolding"⟩ ]

/-- `initializeSession(topic)`: fresh state; also the body of the reset
endpoint, which calls it with a null topic. -/
def initializeSession (topic : Option String) : SocraticState :=
  { topic := topic
    userAnswers := []
    thoughtNodes := []
    thoughtConnections := []
    conversationHistory := []
    questionDepth := 0
    currentQuestion := none
    solutionPath := SOLUTION_PATHS_default
    currentPathStep := 0
    misconceptions := []
    calibrationQuestions := []
    baselineKnowledgeLevel := none
    currentScaffoldLevel := 0
    assertions := []
    provenNodes := []
    consistencyScore := 0
    contradictions := []
    synthesisMemo := none
    questionSequence := []
    sessionPhase := "calibration"
    knowledgeGapMap := none }

/-- JavaScript truthiness of the session topic: `!socraticState.topic` is
true when the topic is null or the empty string. -/
def topicFalsy (t : Option String) : Bool :=
  match t with
  | none => true
  | some str => str = ""

/-- The `SCAFFOLD_LEVELS` table, keyed 0, 1, 2. -/
def SCAFFOLD_LEVELS : Nat → Option String
  | 0 => some "nudge"
  | 1 => some "hint"
  | 2 => some "partial_explanation"
  | _ => none

/-- The object `requestScaffold` returns: either a level with its name, or
only the terminal message. -/
structure ScaffoldResponse where
  level : Option Nat
  levelName : Option String
  message : String
deriving Repr, DecidableEq

/-- `requestScaffold()`: increments the scaffold level while it is below 2
and looks the incremented level up in `SCAFFOLD_LEVELS`; at the ceiling it
returns only the terminal message and leaves the state unchanged. -/
def requestScaffold (s : SocraticState) : SocraticState × ScaffoldResponse :=
  if s.currentScaffoldLevel < 2 then
    let lvl := s.currentScaffoldLevel + 1
    let lname := (SCAFFOLD_LEVELS lvl).getD "undefined"
    ({ s with currentScaffoldLevel := lvl },
     { level := some lvl
       levelName := some lname
       message := "Providing " ++ lname ++ " level support..." })
  else
    (s, { level := none
          levelName := none
          message := "Maximum scaffolding level reached. Please share your thinking." })

/-- `recordAssertion(statement, nodeId, confidence)`: persists an assertion
only when `confidence > 70`, tagging it foundational when the current
curriculum step is at most 1; otherwise returns null and changes nothing.
The ambient `Date.now()` is threaded as `now`. -/
def recordAssertion (statement nodeId : String) (confidence : Int) (now : Nat)
    (s : SocraticState) : SocraticState × Option Assertion :=
  if confidence > 70 then
    let a : Assertion :=
      { id := "assert-" ++ toString now
        statement := statement
        nodeId := nodeId
        confidence := confidence
        timestamp := now
        foundational := s.currentPathStep ≤ 1 }
    ({ s with assertions := s.assertions ++ [a]
              provenNodes :=
                if nodeId ∈ s.provenNodes then s.provenNodes
                else s.provenNodes ++ [nodeId] },
     some a)
  else (s, none)

/-- `updateConsistencyScore(resolvedContradiction)`: add 10 capped at 100
when resolved, subtract 5 floored at 0 otherwise. -/
def updateConsistencyScore (resolvedContradiction : Bool) (s : SocraticState) :
    SocraticState :=
  if resolvedContradiction then
    { s with consistencyScore := min 100 (s.consistencyScore + 10) }
  else
    { s with consistencyScore := max 0 (s.consistencyScore - 5) }

/-- Lower-casing as JavaScript `toLowerCase` on the embedded alphabet. -/
def jsLower (str : String) : String :=
  String.mk (str.data.map Char.toLower)

/-- Whether `hay` starts with `needle`, on character lists. -/
def leadMatch : List Char → List Char → Bool
  | [], _ => true
  | _ :: _, [] => false
  | a :: as, b :: bs => a = b && leadMatch as bs

/-- Whether `needle` occurs as a contiguous run inside `hay`. -/
def hasSub (hay needle : List Char) : Bool :=
  match hay with
  | [] => needle.isEmpty
  | _ :: rest => leadMatch needle hay || hasSub rest needle

/-- JavaScript `hay.includes(needle)` on strings. -/
def jsIncludes (hay needle : String) : Bool :=
  hasSub hay.data needle.data

/-- JavaScript `str.split(/\s+/)`: splits at maximal whitespace runs,
keeping an empty token at a leading or trailing separator. -/
def splitWsGo : List Char → List Char → List String
  | [], acc => [String.mk acc.reverse]
  | c :: rest, acc =>
    if c.isWhitespace then
      match rest with
      | [] => [String.mk acc.reverse, ""]
      | d :: _ =>
        if d.isWhitespace then splitWsGo rest acc
        else String.mk acc.reverse :: splitWsGo rest []
    else splitWsGo rest (c :: acc)

/-- JavaScript `str.split(/\s+/)` as a function on strings. -/
def jsSplitWs (str : String) : List String :=
  splitWsGo str.data []

/-- `detectContradiction(newStatement, previousStatements)`: a prior
statement conflicts when the new statement carries a negation marker the
prior lacks and some whitespace-split token of the lowered prior occurs in
the lowered new statement; on any conflict a contradiction record is
appended and true returned. -/
def detectContradiction (newStatement : String) (previousStatements : List String)
    (now : Nat) (s : SocraticState) : SocraticState × Bool :=
  let lowNew := jsLower newStatement
  let hasNegation := jsIncludes lowNew "not" || jsIncludes lowNew "no" ||
    jsIncludes lowNew "never"
  let contradictions := previousStatements.filter (fun prev =>
    hasNegation && !(jsIncludes (jsLower prev) "not") &&
      (jsSplitWs (jsLower prev)).any (fun word => jsIncludes lowNew word))
  if contradictions.isEmpty then (s, false)
  else
    ({ s with contradictions := s.contradictions ++
        [{ id := "contradiction-" ++ toString now
           new_ := newStatement
           conflictsWith := contradictions
           detected_at := s.questionDepth }] },
     true)

/-- The `ERROR_TYPES` taxonomy and `categorizeError(answer, _)`: keyword
heuristic mapping an answer to calculation, logic or fundamental. -/
def categorizeError (answer : String) : String :=
  if jsIncludes answer "forgot" || jsIncludes answer "miscalculated" then
    "calculation"
  else if jsIncludes answer "but" && jsIncludes answer "instead" then
    "logic"
  else
    "fundamental"

/-- `detectMisconception(userAnswer, previousContext)`: records a
misconception classified by `categorizeError` at the current depth. -/
def detectMisconception (userAnswer : String) (previousContext : List ChatMsg)
    (now : Nat) (s : SocraticState) : SocraticState × Misconception :=
  let m : Misconception :=
    { id := "misc-" ++ toString now
      answer := userAnswer
      context := previousContext
      type_ := categorizeError userAnswer
      severity := "unknown"
      detected_at := s.questionDepth
      resolved := false }
  ({ s with misconceptions := s.misconceptions ++ [m] }, m)

/-- `trackQuestionDiversity(questionType)`: appends the tag, inspects the
last five tags, and warns when they are all identical and at least three
observations exist in the window. -/
def trackQuestionDiversity (questionType : String) (s : SocraticState) :
    SocraticState × Option String :=
  let s1 := { s with questionSequence := s.questionSequence ++ [questionType] }
  let recentQuestions := s1.questionSequence.drop (s1.questionSequence.length - 5)
  let uniqueTypes := recentQuestions.dedup.length
  if uniqueTypes = 1 ∧ recentQuestions.length ≥ 3 then
    (s1, some "Question type repetition detected")
  else (s1, none)

/-- `addToThoughtProcess(answer, questionNumber)`: appends a node and links
it to the previous node when one exists. -/
def addToThoughtProcess (answer : String) (questionNumber : Nat) (now : Nat)
    (s : SocraticState) : SocraticState :=
  let node : ThoughtNode :=
    { id := "node-" ++ toString questionNumber
      text := answer
      depth := s.questionDepth
      timestamp := now }
  let nodes := s.thoughtNodes ++ [node]
  { s with
      thoughtNodes := nodes
      thoughtConnections :=
        if nodes.length > 1 then
          match nodes.get? (nodes.length - 2) with
          | some prevNode =>
              s.thoughtConnections ++ [{ from_ := prevNode.id, to_ := node.id }]
          | none => s.thoughtConnections
        else s.thoughtConnections }

/-- `addToConversationHistory(role, content)`. -/
def addToConversationHistory (role content : String) (now : Nat)
    (s : SocraticState) : SocraticState :=
  { s with conversationHistory :=
      s.conversationHistory ++ [{ role := role, content := content, timestamp := now }] }

/-- The key list of the `QUESTION_TYPES` table, in declaration order; the
respond endpoint indexes it by `Math.min(questionDepth - 1, length - 1)`. -/
def questionTypesL : List String :=
  ["feynman", "edgeCase", "assumption", "doubleDown", "counterExemplar", "reflectiveToss"]

/-- The JSON body the respond endpoint returns on success. -/
structure RespondResponse where
  question : String
  depth : Nat
  questionType : String
  confidence : Int
  consistencyScore : Int
  assertionCount : Nat
  contradictionDetected : Bool
  loopWarning : Option String
  readyForSynthesis : Bool
deriving Repr, DecidableEq

/-- The success path of the `POST /api/question/respond` handler: appends
the answer, increments the depth, records the thought node and history
entry, selects the type tag by saturating index, tracks diversity, detects
contradictions against the prior answers, records an assertion above
confidence 70, logs a misconception above confidence 85 past depth 2,
updates the consistency score, escalates the scaffold below confidence 40,
stores the LLM question (`nextQuestion`), and reports readiness for
synthesis. -/
def respondCore (answer : String) (confidence : Int) (nextQuestion : String)
    (now : Nat) (s : SocraticState) : SocraticState × RespondResponse :=
    let s1 := { s with userAnswers := s.userAnswers ++ [answer]
                       questionDepth := s.questionDepth + 1 }
    let s2 := addToThoughtProcess answer s1.userAnswers.length now s1
    let s3 := addToConversationHistory "user" answer now s2
    let selectedType :=
      questionTypesL.getD (min (s3.questionDepth - 1) (questionTypesL.length - 1)) "feynman"
    let p4 := trackQuestionDiversity selectedType s3
    let previousAnswers := p4.1.userAnswers.dropLast
    let p5 := detectContradiction answer previousAnswers now p4.1
    let hasContradiction := p5.2
    let s6 := if confidence > 70 then
        (recordAssertion answer ("node-" ++ toString p5.1.userAnswers.length)
          confidence now p5.1).1
      else p5.1
    let s7 := if confidence > 85 ∧ s6.questionDepth > 2 then
        (detectMisconception answer s6.conversationHistory now s6).1
      else s6
    let s8 := updateConsistencyScore (hasContradiction == false) s7
    let s9 := if confidence < 40 ∧ s8.currentScaffoldLevel < 2 then
        (requestScaffold s8).1
      else s8
    let s10 := addToConversationHistory "assistant" nextQuestion
      now { s9 with currentQuestion := some nextQuestion }
    let readyForSynthesis :=
      decide (s10.questionDepth ≥ 5) && decide (s10.consistencyScore > 60) &&
        decide (s10.assertions.length > 2)
    (s10,
      { question := nextQuestion
        depth := s10.questionDepth
        questionType := selectedType
        confidence := confidence
        consistencyScore := s10.consistencyScore
        assertionCount := s10.assertions.length
        contradictionDetected := hasContradiction
        loopWarning := p4.2
        readyForSynthesis := readyForSynthesis })

/-- The `POST /api/question/respond` handler: its two precondition guards
around `respondCore`.  Failure paths return the untouched state. -/
def respond (answer : String) (confidence : Int) (nextQuestion : String)
    (now : Nat) (s : SocraticState) :
    SocraticState × Except String RespondResponse :=
  if answer = "" then (s, Except.error "Answer is required")
  else if topicFalsy s.topic then
    (s, Except.error "No active session. Initialize a topic first.")
  else
    let p := respondCore answer confidence nextQuestion now s
    (p.1, Except.ok p.2)

/-- The `POST /api/question/generate` handler: guards on the request-body
topic, then stores the LLM question and sets `questionDepth` to 0 without
touching the rest of the session. -/
def generateQuestion (topicArg question : String) (now : Nat)
    (s : SocraticState) : SocraticState × Except String String :=
  if topicArg = "" then (s, Except.error "Topic is required")
  else
    let s1 := { s with currentQuestion := some question, questionDepth := 0 }
    (addToConversationHistory "assistant" question now s1, Except.ok question)

/-- `assessBaselineKnowledge(calibrationResponses)`: length-based complexity
heuristic choosing beginner, intermediate or advanced. -/
def assessBaselineKnowledge (calibrationResponses : List String)
    (s : SocraticState) : SocraticState :=
  let complexity := calibrationResponses.foldl
    (fun sum resp =>
      if resp.length < 20 then sum + 1
      else if resp.length < 100 then sum + 2
      else sum + 3) 0
  let lvl : String :=
    if complexity ≤ 2 then "beginner"
    else if complexity ≤ 4 then "intermediate"
    else "advanced"
  { s with baselineKnowledgeLevel := some lvl }

/-- `generateKnowledgeGapMap()`: per curriculum step, mastered / current /
locked with confidence 100 / current consistency score / 0. -/
def generateKnowledgeGapMap (s : SocraticState) : SocraticState × List GapEntry :=
  let masteredSteps := s.currentPathStep
  let gapMap := s.solutionPath.enum.map (fun p =>
    { step := p.2.name
      status := if p.1 < masteredSteps then "mastered"
                else if p.1 = masteredSteps then "current"
                else "locked"
      confidence := if p.1 < masteredSteps then 100
                    else if p.1 = masteredSteps then s.consistencyScore
                    else 0 : GapEntry })
  ({ s with knowledgeGapMap := some gapMap }, gapMap)

/-- `evaluateSynthesis(synthesisMemo)`: stores the memo and forces the
phase to synthesis. -/
def evaluateSynthesis (synthesisMemo : String) (s : SocraticState) :
    SocraticState :=
  { s with synthesisMemo := some synthesisMemo, sessionPhase := "synthesis" }

/-- The boundary operations of the request interface, each carrying the
request-body inputs and, where the handler embeds an LLM reply into the
session, that reply text. -/
inductive Op where
  | init (topic : String)
  | calibrate (calibrationResponses : List String) (firstQuestion : String)
  | respond (answer : String) (confidence : Int) (nextQuestion : String)
  | scaffold (text : String)
  | synthesize
  | evalSynthesis (synthesisMemo : String) (finalQuestion : String)
  | conclude
  | reset
deriving Repr, DecidableEq

/-- One boundary request against the session, returning the state the
server holds after the handler ran (failure paths leave it untouched). -/
def step (op : Op) (now : Nat) (s : SocraticState) : SocraticState :=
  match op with
  | .init t =>
      if t = "" then s
      else
        let s1 := initializeSession (some t)
        { s1 with calibrationQuestions :=
            [ "What\x27s your first impression when you hear about \x22" ++ t ++ "\x22?",
              "Have you worked with " ++ t ++ " before? In what context?" ] }
  | .calibrate rs q =>
      if rs.isEmpty then s
      else
        let s1 := assessBaselineKnowledge rs s
        let s2 := { s1 with currentQuestion := some q, sessionPhase := "progressive" }
        addToConversationHistory "assistant" q now s2
  | .respond a c q => (respond a c q now s).1
  | .scaffold text =>
      if topicFalsy s.topic then s
      else
        let p := requestScaffold s
        addToConversationHistory "assistant"
          ("[" ++ p.2.levelName.getD "undefined" ++ "] " ++ text) now p.1
  | .synthesize => { s with sessionPhase := "synthesis" }
  | .evalSynthesis memo finalQ =>
      if memo = "" then s
      else
        let s1 := evaluateSynthesis memo s
        let s2 := { s1 with sessionPhase := "conclusion" }
        let s3 := (generateKnowledgeGapMap s2).1
        addToConversationHistory "assistant" finalQ now s3
  | .conclude =>
      let s1 := (generateKnowledgeGapMap s).1
      { s1 with sessionPhase := "concluded" }
  | .reset => initializeSession none

/-- Running a list of boundary requests in order. -/
def run (ops : List Op) (now : Nat) (s : SocraticState) : SocraticState :=
  ops.foldl (fun st op => step op now st) s

/-- Position of a phase in the specified order calibration → progressive →
synthesis → conclusion; the extra terminal string "concluded" sits after
them. -/
def phaseRank (phase : String) : Nat :=
  if phase = "calibration" then 0
  else if phase = "progressive" then 1
  else if phase = "synthesis" then 2
  else if phase = "conclusion" then 3
  else 4

/-- The `sessionSummary` object of `GET /api/session/state`. -/
structure SessionSummary where
  topic : Option String
  phase : String
  questionDepth : Nat
  consistencyScore : Int
  assertionCount : Nat
  misconceptionCount : Nat
  baselineLevel : Option String
  currentPathStep : Nat
  totalPathSteps : Nat
deriving Repr, DecidableEq

/-- `GET /api/session/state` (summary part). -/
def getStateSummary (s : SocraticState) : SessionSummary :=
  { topic := s.topic
    phase := s.sessionPhase
    questionDepth := s.questionDepth
    consistencyScore := s.consistencyScore
    assertionCount := s.assertions.length
    misconceptionCount := s.misconceptions.length
    baselineLevel := s.baselineKnowledgeLevel
    currentPathStep := s.currentPathStep
    totalPathSteps := s.solutionPath.length }

/-- The phase field of `GET /api/visualization/consistency-score`
(`metadata.currentPhase`). -/
def consistencyVizPhase (s : SocraticState) : String :=
  s.sessionPhase

/-- The phase field of `GET /api/conversation/history`. -/
def historyViewPhase (s : SocraticState) : String :=
  s.sessionPhase

/-- Folding a sequence of resolved/unresolved events through the
consistency scorer. -/
def scoreAfter (updates : List Bool) (s : SocraticState) : SocraticState :=
  updates.foldl (fun st r => updateConsistencyScore r st) s

/-- A session four answered questions in, score 51, two assertions: one
submit-answer away from the boundary depth 5 / score 61 / count 2. -/
def sampleReadyState : SocraticState :=
  { initializeSession (some "math") with
      questionDepth := 4
      consistencyScore := 51
      assertions :=
        [ ⟨"a1", "x", "node-1", 80, 0, true⟩,
          ⟨"a2", "y", "node-2", 80, 0, true⟩ ] }

/-- A session nine answered questions in, past the saturation point of the
question-type list. -/
def sampleDeepState : SocraticState :=
  { initializeSession (some "math") with questionDepth := 9 }

/-- The session after one successful submit-answer on a fresh topic. -/
def afterOneAnswer : SocraticState :=
  (respond "alpha" 50 "q1" 0 (initializeSession (some "math"))).1

theorem trackQuestionDiversity_fst (t : String) (s : SocraticState) :
    (trackQuestionDiversity t s).1 =
      { s with questionSequence := s.questionSequence ++ [t] } := by
  unfold trackQuestionDiversity
  dsimp only
  split <;> rfl

theorem detectContradiction_fst_questionDepth (a : String) (ps : List String)
    (now : Nat) (s : SocraticState) :
    (detectContradiction a ps now s).1.questionDepth = s.questionDepth := by
  unfold detectContradiction; dsimp only; split <;> rfl

theorem detectContradiction_fst_userAnswers (a : String) (ps : List String)
    (now : Nat) (s : SocraticState) :
    (detectContradiction a ps now s).1.userAnswers = s.userAnswers := by
  unfold detectContradiction; dsimp only; split <;> rfl

theorem detectContradiction_fst_scaffold (a : String) (ps : List String)
    (now : Nat) (s : SocraticState) :
    (detectContradiction a ps now s).1.currentScaffoldLevel =
      s.currentScaffoldLevel := by
  unfold detectContradiction; dsimp only; split <;> rfl

theorem detectContradiction_fst_phase (a : String) (ps : List String)
    (now : Nat) (s : SocraticState) :
    (detectContradiction a ps now s).1.sessionPhase = s.sessionPhase := by
  unfold detectContradiction; dsimp only; split <;> rfl

theorem detectContradiction_fst_score (a : String) (ps : List String)
    (now : Nat) (s : SocraticState) :
    (detectContradiction a ps now s).1.consistencyScore = s.consistencyScore := by
  unfold detectContradiction; dsimp only; split <;> rfl

theorem detectContradiction_fst_assertions (a : String) (ps : List String)
    (now : Nat) (s : SocraticState) :
    (detectContradiction a ps now s).1.assertions = s.assertions := by
  unfold detectContradiction; dsimp only; split <;> rfl

theorem recordAssertion_fst_questionDepth (st nid : String) (c : Int) (now : Nat)
    (s : SocraticState) :
    (recordAssertion st nid c now s).1.questionDepth = s.questionDepth := by
  unfold recordAssertion; dsimp only; split <;> rfl

theorem recordAssertion_fst_userAnswers (st nid : String) (c : Int) (now : Nat)
    (s : SocraticState) :
    (recordAssertion st nid c now s).1.userAnswers = s.userAnswers := by
  unfold recordAssertion; dsimp only; split <;> rfl

theorem recordAssertion_fst_scaffold (st nid : String) (c : Int) (now : Nat)
    (s : SocraticState) :
    (recordAssertion st nid c now s).1.currentScaffoldLevel =
      s.currentScaffoldLevel := by
  unfold recordAssertion; dsimp only; split <;> rfl

theorem recordAssertion_fst_phase (st nid : String) (c : Int) (now : Nat)
    (s : SocraticState) :
    (recordAssertion st nid c now s).1.sessionPhase = s.sessionPhase := by
  unfold recordAssertion; dsimp only; split <;> rfl

theorem recordAssertion_fst_score (st nid : String) (c : Int) (now : Nat)
    (s : SocraticState) :
    (recordAssertion st nid c now s).1.consistencyScore = s.consistencyScore := by
  unfold recordAssertion; dsimp only; split <;> rfl

theorem updateConsistencyScore_questionDepth (r : Bool) (s : SocraticState) :
    (updateConsistencyScore r s).questionDepth = s.questionDepth := by
  unfold updateConsistencyScore; split <;> rfl

theorem updateConsistencyScore_userAnswers (r : Bool) (s : SocraticState) :
    (updateConsistencyScore r s).userAnswers = s.userAnswers := by
  unfold updateConsistencyScore; split <;> rfl

theorem updateConsistencyScore_scaffold (r : Bool) (s : SocraticState) :
    (updateConsistencyScore r s).currentScaffoldLevel =
      s.currentScaffoldLevel := by
  unfold updateConsistencyScore; split <;> rfl

theorem updateConsistencyScore_phase (r : Bool) (s : SocraticState) :
    (updateConsistencyScore r s).sessionPhase = s.sessionPhase := by
  unfold updateConsistencyScore; split <;> rfl

theorem updateConsistencyScore_assertions (r : Bool) (s : SocraticState) :
    (updateConsistencyScore r s).assertions = s.assertions := by
  unfold updateConsistencyScore; split <;> rfl

theorem updateConsistencyScore_score (r : Bool) (s : SocraticState) :
    (updateConsistencyScore r s).consistencyScore =
      if r then min 100 (s.consistencyScore + 10)
      else max 0 (s.consistencyScore - 5) := by
  unfold updateConsistencyScore; split <;> rfl

theorem requestScaffold_fst_questionDepth (s : SocraticState) :
    (requestScaffold s).1.questionDepth = s.questionDepth := by
  unfold requestScaffold; dsimp only; split <;> rfl

theorem requestScaffold_fst_userAnswers (s : SocraticState) :
    (requestScaffold s).1.userAnswers = s.userAnswers := by
  unfold requestScaffold; dsimp only; split <;> rfl

theorem requestScaffold_fst_phase (s : SocraticState) :
    (requestScaffold s).1.sessionPhase = s.sessionPhase := by
  unfold requestScaffold; dsimp only; split <;> rfl

theorem requestScaffold_fst_score (s : SocraticState) :
    (requestScaffold s).1.consistencyScore = s.consistencyScore := by
  unfold requestScaffold; dsimp only; split <;> rfl

theorem requestScaffold_fst_assertions (s : SocraticState) :
    (requestScaffold s).1.assertions = s.assertions := by
  unfold requestScaffold; dsimp only; split <;> rfl

theorem requestScaffold_fst_scaffold (s : SocraticState) :
    (requestScaffold s).1.currentScaffoldLevel =
      if s.currentScaffoldLevel < 2 then s.currentScaffoldLevel + 1
      else s.currentScaffoldLevel := by
  unfold requestScaffold; dsimp only; split <;> rfl

theorem respondCore_fst_questionDepth (a q_ : String) (c : Int) (now : Nat)
    (s : SocraticState) :
    (respondCore a c q_ now s).1.questionDepth = s.questionDepth + 1 := by
  simp only [respondCore, trackQuestionDiversity_fst, addToThoughtProcess,
    addToConversationHistory, apply_ite SocraticState.questionDepth,
    detectContradiction_fst_questionDepth, recordAssertion_fst_questionDepth,
    detectMisconception, updateConsistencyScore_questionDepth,
    requestScaffold_fst_questionDepth, ite_self]

theorem respondCore_fst_userAnswers (a q_ : String) (c : Int) (now : Nat)
    (s : SocraticState) :
    (respondCore a c q_ now s).1.userAnswers = s.userAnswers ++ [a] := by
  simp only [respondCore, trackQuestionDiversity_fst, addToThoughtProcess,
    addToConversationHistory, apply_ite SocraticState.userAnswers,
    detectContradiction_fst_userAnswers, recordAssertion_fst_userAnswers,
    detectMisconception, updateConsistencyScore_userAnswers,
    requestScaffold_fst_userAnswers, ite_self]

theorem respondCore_fst_phase (a q_ : String) (c : Int) (now : Nat)
    (s : SocraticState) :
    (respondCore a c q_ now s).1.sessionPhase = s.sessionPhase := by
  simp only [respondCore, trackQuestionDiversity_fst, addToThoughtProcess,
    addToConversationHistory, apply_ite SocraticState.sessionPhase,
    detectContradiction_fst_phase, recordAssertion_fst_phase,
    detectMisconception, updateConsistencyScore_phase,
    requestScaffold_fst_phase, ite_self]

theorem respondCore_fst_scaffold (a q_ : String) (c : Int) (now : Nat)
    (s : SocraticState) :
    (respondCore a c q_ now s).1.currentScaffoldLevel =
      if c < 40 ∧ s.currentScaffoldLevel < 2 then s.currentScaffoldLevel + 1
      else s.currentScaffoldLevel := by
  simp only [respondCore, trackQuestionDiversity_fst, addToThoughtProcess,
    addToConversationHistory, apply_ite SocraticState.currentScaffoldLevel,
    detectContradiction_fst_scaffold, recordAssertion_fst_scaffold,
    detectMisconception, updateConsistencyScore_scaffold,
    requestScaffold_fst_scaffold, ite_self]
  split
  · split
    · rfl
    · rename_i h1 h2
      exact absurd h1.2 h2
  · rfl

theorem scoreAfter_bounds (updates : List Bool) :
    ∀ s : SocraticState, 0 ≤ s.consistencyScore → s.consistencyScore ≤ 100 →
      0 ≤ (scoreAfter updates s).consistencyScore ∧
      (scoreAfter updates s).consistencyScore ≤ 100 := by
  induction updates with
  | nil => exact fun s h0 h1 => ⟨h0, h1⟩
  | cons r rs ih =>
    intro s h0 h1
    have hstep : 0 ≤ (updateConsistencyScore r s).consistencyScore ∧
        (updateConsistencyScore r s).consistencyScore ≤ 100 := by
      rw [updateConsistencyScore_score]
      split
      · constructor
        · exact le_min (by norm_num) (by omega)
        · exact min_le_left _ _
      · constructor
        · exact le_max_left _ _
        · exact max_le (by norm_num) (by omega)
    simpa only [scoreAfter, List.foldl] using ih (updateConsistencyScore r s) hstep.1 hstep.2

/-- C1 counterexample: on a fresh session (scaffold level 0) the first
scaffold request returns levelName "hint", not "nudge" as the claim
states. -/
theorem scaffold_first_request_is_hint_not_nudge :
    (initializeSession (some "math")).currentScaffoldLevel = 0 ∧
    (requestScaffold (initializeSession (some "math"))).2.levelName = some "hint" ∧
    (requestScaffold (initializeSession (some "math"))).2.levelName ≠ some "nudge" := by
  refine ⟨rfl, rfl, ?_⟩
  decide

/-- C1 (amended): from scaffold level 0, the first request returns level 1
with levelName "hint", the second level 2 with levelName
"partial_explanation", and a third request leaves the level at 2, changes
no state, and returns only the terminal maximum-scaffolding message. -/
theorem scaffold_request_sequence_from_level_zero (s : SocraticState)
    (h : s.currentScaffoldLevel = 0) :
    ((requestScaffold s).2.level = some 1 ∧
      (requestScaffold s).2.levelName = some "hint") ∧
    ((requestScaffold (requestScaffold s).1).2.level = some 2 ∧
      (requestScaffold (requestScaffold s).1).2.levelName =
        some "partial_explanation") ∧
    ((requestScaffold (requestScaffold (requestScaffold s).1).1).1 =
        (requestScaffold (requestScaffold s).1).1 ∧
      (requestScaffold (requestScaffold (requestScaffold s).1).1).1.currentScaffoldLevel = 2 ∧
      (requestScaffold (requestScaffold (requestScaffold s).1).1).2 =
        { level := none
          levelName := none
          message := "Maximum scaffolding level reached. Please share your thinking." }) := by
  simp [requestScaffold, h, SCAFFOLD_LEVELS]

/-- Witness for the amended C1 theorem at a freshly initialized session. -/
theorem scaffold_request_sequence_from_level_zero_witness :
    (initializeSession (some "math")).currentScaffoldLevel = 0 ∧
    (requestScaffold (initializeSession (some "math"))).2.levelName = some "hint" ∧
    (requestScaffold (requestScaffold (initializeSession (some "math"))).1).2.levelName =
      some "partial_explanation" :=
  ⟨rfl,
   (scaffold_request_sequence_from_level_zero (initializeSession (some "math")) rfl).1.2,
   (scaffold_request_sequence_from_level_zero (initializeSession (some "math")) rfl).2.1.2⟩

/-- C3: the consistency-score update adds 10 capped at 100 on a resolved
turn and subtracts 5 floored at 0 otherwise, and from the initial score 0
every update sequence keeps the score within [0, 100]. -/
theorem consistency_update_policy_and_bounds :
    (∀ (s : SocraticState) (resolved : Bool),
      (updateConsistencyScore resolved s).consistencyScore =
        if resolved then min 100 (s.consistencyScore + 10)
        else max 0 (s.consistencyScore - 5)) ∧
    (∀ (updates : List Bool) (t : Option String),
      0 ≤ (scoreAfter updates (initializeSession t)).consistencyScore ∧
      (scoreAfter updates (initializeSession t)).consistencyScore ≤ 100) :=
  ⟨fun s resolved => updateConsistencyScore_score resolved s,
   fun updates t => scoreAfter_bounds updates (initializeSession t)
     (by simp [initializeSession]) (by simp [initializeSession])⟩

/-- C5: an assertion is persisted exactly when confidence exceeds 70
(strictly); a persisted assertion is appended to the ledger tagged
foundational exactly when the current curriculum step is at most 1, and at
confidence 70 or below the call returns none and leaves the state
untouched. -/
theorem record_assertion_threshold_and_foundational
    (s : SocraticState) (stmt nid : String) (conf : Int) (now : Nat) :
    ((recordAssertion stmt nid conf now s).2.isSome ↔ conf > 70) ∧
    (conf > 70 →
      (recordAssertion stmt nid conf now s).1.assertions =
        s.assertions ++
          [{ id := "assert-" ++ toString now
             statement := stmt
             nodeId := nid
             confidence := conf
             timestamp := now
             foundational := decide (s.currentPathStep ≤ 1) }]) ∧
    (∀ a, (recordAssertion stmt nid conf now s).2 = some a →
      a.foundational = decide (s.currentPathStep ≤ 1)) ∧
    (¬ conf > 70 → recordAssertion stmt nid conf now s = (s, none)) := by
  unfold recordAssertion
  dsimp only
  split
  · rename_i h
    refine ⟨by simp [h], fun _ => rfl, ?_, fun hn => absurd h hn⟩
    intro a ha
    cases Option.some.inj ha
    rfl
  · rename_i h
    refine ⟨by simp [h], fun hc => absurd hc h, ?_, fun _ => rfl⟩
    intro a ha
    cases ha

/-- Witness for C5 at confidence 71 (records) and confidence 70 (no-op) on
a fresh session. -/
theorem record_assertion_threshold_and_foundational_witness :
    ((71 : Int) > 70 ∧
      (recordAssertion "stm" "n1" 71 5 (initializeSession (some "t"))).1.assertions =
        (initializeSession (some "t")).assertions ++
          [{ id := "assert-" ++ toString 5
             statement := "stm"
             nodeId := "n1"
             confidence := 71
             timestamp := 5
             foundational := decide ((initializeSession (some "t")).currentPathStep ≤ 1) }]) ∧
    (¬ (70 : Int) > 70 ∧
      recordAssertion "stm" "n1" 70 5 (initializeSession (some "t")) =
        (initializeSession (some "t"), none)) :=
  ⟨⟨by decide,
    (record_assertion_threshold_and_foundational
      (initializeSession (some "t")) "stm" "n1" 71 5).2.1 (by decide)⟩,
   ⟨by decide,
    (record_assertion_threshold_and_foundational
      (initializeSession (some "t")) "stm" "n1" 70 5).2.2.2 (by decide)⟩⟩

theorem respond_ok (a q : String) (c : Int) (now : Nat) (s : SocraticState)
    (ha : ¬ a = "") (ht : topicFalsy s.topic = false) :
    respond a c q now s =
      ((respondCore a c q now s).1, Except.ok (respondCore a c q now s).2) := by
  unfold respond
  rw [if_neg ha, if_neg (by simp [ht])]

theorem respond_fst_phase (a q : String) (c : Int) (now : Nat)
    (s : SocraticState) :
    (respond a c q now s).1.sessionPhase = s.sessionPhase := by
  unfold respond
  split
  · rfl
  split
  · rfl
  exact respondCore_fst_phase a q c now s

/-- C2 counterexample: from a fresh session, synthesize then
evaluate-synthesis reaches phase "conclusion", and one further synthesize
request (not a reset or init) moves the phase back to "synthesis", an
earlier value in the specified order. -/
theorem phase_moves_backward_via_synthesize :
    (run [Op.synthesize, Op.evalSynthesis "memo" "fq"] 0
        (initializeSession (some "math"))).sessionPhase = "conclusion" ∧
    (run [Op.synthesize, Op.evalSynthesis "memo" "fq", Op.synthesize] 0
        (initializeSession (some "math"))).sessionPhase = "synthesis" ∧
    phaseRank "synthesis" < phaseRank "conclusion" := by
  refine ⟨rfl, rfl, by decide⟩

/-- C2 (amended): submit-answer and scaffold requests never change the
phase, conclude always sets "concluded", and init/reset always restore
"calibration"; but calibrate, synthesize and evaluate-synthesis set the
phase unconditionally to "progressive", "synthesis" and "conclusion"
respectively, whatever the current phase, so the phase order is not
monotone (synthesize after evaluate-synthesis moves conclusion back to
synthesis). -/
theorem phase_effects_of_boundary_ops :
    (∀ (a q : String) (c : Int) (now : Nat) (s : SocraticState),
      (step (Op.respond a c q) now s).sessionPhase = s.sessionPhase) ∧
    (∀ (text : String) (now : Nat) (s : SocraticState),
      (step (Op.scaffold text) now s).sessionPhase = s.sessionPhase) ∧
    (∀ (now : Nat) (s : SocraticState),
      (step Op.synthesize now s).sessionPhase = "synthesis") ∧
    (∀ (rs : List String) (q : String) (now : Nat) (s : SocraticState),
      rs ≠ [] → (step (Op.calibrate rs q) now s).sessionPhase = "progressive") ∧
    (∀ (m fq : String) (now : Nat) (s : SocraticState),
      m ≠ "" → (step (Op.evalSynthesis m fq) now s).sessionPhase = "conclusion") ∧
    (∀ (now : Nat) (s : SocraticState),
      (step Op.conclude now s).sessionPhase = "concluded") ∧
    (∀ (t : String) (now : Nat) (s : SocraticState),
      t ≠ "" → (step (Op.init t) now s).sessionPhase = "calibration") ∧
    (∀ (now : Nat) (s : SocraticState),
      (step Op.reset now s).sessionPhase = "calibration") := by
  refine ⟨?_, ?_, ?_, ?_, ?_, ?_, ?_, ?_⟩
  · intro a q c now s
    exact respond_fst_phase a q c now s
  · intro text now s
    simp only [step]
    split
    · rfl
    · simp [addToConversationHistory, requestScaffold_fst_phase]
  · intro now s
    rfl
  · intro rs q now s hrs
    simp only [step]
    rw [if_neg (by simpa using hrs)]
    rfl
  · intro m fq now s hm
    simp only [step]
    rw [if_neg hm]
    rfl
  · intro now s
    rfl
  · intro t now s htop
    simp only [step]
    rw [if_neg htop]
    rfl
  · intro now s
    rfl

/-- Witness for the amended C2 theorem: evaluate-synthesis on a fresh
session with a nonempty memo lands in phase "conclusion". -/
theorem phase_effects_of_boundary_ops_witness :
    ("memo" : String) ≠ "" ∧
    (step (Op.evalSynthesis "memo" "fq") 0
      (initializeSession (some "math"))).sessionPhase = "conclusion" :=
  ⟨by decide,
   phase_effects_of_boundary_ops.2.2.2.2.1 "memo" "fq" 0
     (initializeSession (some "math")) (by decide)⟩

/-- C9: conclude sets the session phase to the string "concluded", a fifth
value outside the spec enum (in particular distinct from "conclusion"),
and every state query that surfaces the phase reports that value. -/
theorem conclude_sets_out_of_enum_phase (now : Nat) (s : SocraticState) :
    (step Op.conclude now s).sessionPhase = "concluded" ∧
    ("concluded" : String) ∉
      ["calibration", "progressive", "synthesis", "conclusion"] ∧
    ("concluded" : String) ≠ "conclusion" ∧
    (getStateSummary (step Op.conclude now s)).phase = "concluded" ∧
    consistencyVizPhase (step Op.conclude now s) = "concluded" ∧
    historyViewPhase (step Op.conclude now s) = "concluded" :=
  ⟨rfl, by decide, by decide, rfl, rfl, rfl⟩

/-- C4 counterexample: on a fresh session (scaffold level 0) a successful
submit-answer at confidence 30 leaves the scaffold level at 1, not 0: the
operation escalated rather than reset it. -/
theorem submit_answer_does_not_reset_scaffold :
    (respond "alpha" 30 "go" 0 (initializeSession (some "math"))).2 =
      Except.ok (respondCore "alpha" 30 "go" 0 (initializeSession (some "math"))).2 ∧
    (respond "alpha" 30 "go" 0
      (initializeSession (some "math"))).1.currentScaffoldLevel = 1 ∧
    (1 : Nat) ≠ 0 := by
  refine ⟨rfl, ?_, by decide⟩
  rw [respond_ok "alpha" "go" 30 0 (initializeSession (some "math"))
    (by decide) rfl]
  rw [respondCore_fst_scaffold]
  decide

/-- C4 (amended): submit-answer never resets the scaffold level; it
increments it by one when confidence is below 40 and the level is below 2,
and leaves it unchanged otherwise.  The scaffold level is 0 only because
session init/reset sets it so. -/
theorem scaffold_level_across_submit_answer :
    (∀ (a q : String) (c : Int) (now : Nat) (s : SocraticState),
      a ≠ "" → topicFalsy s.topic = false →
      (respond a c q now s).1.currentScaffoldLevel =
        if c < 40 ∧ s.currentScaffoldLevel < 2 then s.currentScaffoldLevel + 1
        else s.currentScaffoldLevel) ∧
    (∀ t, (initializeSession t).currentScaffoldLevel = 0) := by
  refine ⟨?_, fun t => rfl⟩
  intro a q c now s ha ht
  rw [respond_ok a q c now s ha ht]
  exact respondCore_fst_scaffold a q c now s

/-- Witness for the amended C4 theorem: confidence 80 leaves the scaffold
level of a fresh session unchanged at 0. -/
theorem scaffold_level_across_submit_answer_witness :
    ("alpha" : String) ≠ "" ∧
    topicFalsy (initializeSession (some "math")).topic = false ∧
    (respond "alpha" 80 "go" 0
        (initializeSession (some "math"))).1.currentScaffoldLevel =
      if (80 : Int) < 40 ∧
          (initializeSession (some "math")).currentScaffoldLevel < 2 then
        (initializeSession (some "math")).currentScaffoldLevel + 1
      else (initializeSession (some "math")).currentScaffoldLevel :=
  ⟨by decide, rfl,
   scaffold_level_across_submit_answer.1 "alpha" "go" 80 0
     (initializeSession (some "math")) (by decide) rfl⟩

/-- C6: a successful submit-answer reports readyForSynthesis exactly when,
on the resulting state, the depth is at least 5, the consistency score
exceeds 60, and more than 2 assertions exist. -/
theorem ready_for_synthesis_iff (a q : String) (c : Int) (now : Nat)
    (s : SocraticState) (ha : ¬ a = "") (ht : topicFalsy s.topic = false) :
    ∃ resp, (respond a c q now s).2 = Except.ok resp ∧
      resp.readyForSynthesis =
        (decide ((respond a c q now s).1.questionDepth ≥ 5) &&
         decide ((respond a c q now s).1.consistencyScore > 60) &&
         decide ((respond a c q now s).1.assertions.length > 2)) := by
  rw [respond_ok a q c now s ha ht]
  exact ⟨_, rfl, rfl⟩

/-- Witness for C6 at the boundary depth 5, score 61, assertion count 2:
the flag is false because the count condition fails. -/
theorem ready_for_synthesis_iff_witness :
    ("alpha" : String) ≠ "" ∧ topicFalsy sampleReadyState.topic = false ∧
    (∃ resp, (respond "alpha" 50 "q" 0 sampleReadyState).2 = Except.ok resp ∧
      resp.readyForSynthesis =
        (decide ((respond "alpha" 50 "q" 0 sampleReadyState).1.questionDepth ≥ 5) &&
         decide ((respond "alpha" 50 "q" 0 sampleReadyState).1.consistencyScore > 60) &&
         decide ((respond "alpha" 50 "q" 0 sampleReadyState).1.assertions.length > 2))) ∧
    (respond "alpha" 50 "q" 0 sampleReadyState).1.questionDepth = 5 ∧
    (respond "alpha" 50 "q" 0 sampleReadyState).1.consistencyScore = 61 ∧
    (respond "alpha" 50 "q" 0 sampleReadyState).1.assertions.length = 2 ∧
    (respondCore "alpha" 50 "q" 0 sampleReadyState).2.readyForSynthesis = false :=
  ⟨by decide, rfl,
   ready_for_synthesis_iff "alpha" "q" 50 0 sampleReadyState (by decide) rfl,
   rfl, rfl, rfl, rfl⟩

/-- C7: the question-type tag of a successful submit-answer is chosen by
clamped indexing into the fixed six-tag list: at depth d within 1..6 the
tag is the d-th list element, and past depth 6 the tag stays
"reflectiveToss". -/
theorem question_type_saturating_selection (a q : String) (c : Int) (now : Nat)
    (s : SocraticState) (ha : ¬ a = "") (ht : topicFalsy s.topic = false) :
    questionTypesL = ["feynman", "edgeCase", "assumption", "doubleDown",
      "counterExemplar", "reflectiveToss"] ∧
    ∃ resp, (respond a c q now s).2 = Except.ok resp ∧
      resp.questionType =
        questionTypesL.getD
          (min ((respond a c q now s).1.questionDepth - 1)
            (questionTypesL.length - 1)) "feynman" ∧
      ((respond a c q now s).1.questionDepth ≤ 6 →
        resp.questionType =
          questionTypesL.getD ((respond a c q now s).1.questionDepth - 1) "feynman") ∧
      (6 < (respond a c q now s).1.questionDepth →
        resp.questionType = "reflectiveToss") := by
  refine ⟨rfl, ?_⟩
  rw [respond_ok a q c now s ha ht]
  have hqt : (respondCore a c q now s).2.questionType =
      questionTypesL.getD (min s.questionDepth 5) "feynman" := rfl
  have hlen : questionTypesL.length = 6 := rfl
  refine ⟨_, rfl, ?_, ?_, ?_⟩
  · rw [hqt, respondCore_fst_questionDepth, hlen]
    simp
  · intro hle
    rw [respondCore_fst_questionDepth] at hle
    rw [hqt, respondCore_fst_questionDepth]
    have hm : min s.questionDepth 5 = s.questionDepth := by omega
    rw [hm]
    simp
  · intro hgt
    rw [respondCore_fst_questionDepth] at hgt
    rw [hqt]
    have hm : min s.questionDepth 5 = 5 := by omega
    rw [hm]
    rfl

/-- Witness for C7 at depth 10: the tag is still "reflectiveToss". -/
theorem question_type_saturating_selection_witness :
    ("alpha" : String) ≠ "" ∧ topicFalsy sampleDeepState.topic = false ∧
    ∃ resp, (respond "alpha" 50 "q" 0 sampleDeepState).2 = Except.ok resp ∧
      resp.questionType = "reflectiveToss" := by
  refine ⟨by decide, rfl, ?_⟩
  obtain ⟨resp, h1, _, _, h4⟩ :=
    (question_type_saturating_selection "alpha" "q" 50 0 sampleDeepState
      (by decide) rfl).2
  have hd : (respond "alpha" 50 "q" 0 sampleDeepState).1.questionDepth = 10 := rfl
  exact ⟨resp, h1, h4 (by rw [hd]; omega)⟩

/-- C8: with no active topic, submit-answer with a nonempty answer fails
with the no-active-session error and returns the session state entirely
unchanged. -/
theorem submit_answer_no_session_fails_fast (a q : String) (c : Int)
    (now : Nat) (s : SocraticState) (ht : s.topic = none) (ha : ¬ a = "") :
    respond a c q now s =
      (s, Except.error "No active session. Initialize a topic first.") ∧
    (respond a c q now s).1.userAnswers = s.userAnswers ∧
    (respond a c q now s).1.questionDepth = s.questionDepth ∧
    (respond a c q now s).1.conversationHistory = s.conversationHistory ∧
    (respond a c q now s).1.assertions = s.assertions ∧
    (respond a c q now s).1.consistencyScore = s.consistencyScore := by
  have h : respond a c q now s =
      (s, Except.error "No active session. Initialize a topic first.") := by
    unfold respond
    rw [if_neg ha, if_pos (by simp [topicFalsy, ht])]
  exact ⟨h, by rw [h], by rw [h], by rw [h], by rw [h], by rw [h]⟩

/-- Witness for C8 on the reset (topic-less) session. -/
theorem submit_answer_no_session_fails_fast_witness :
    (initializeSession none).topic = none ∧ ("alpha" : String) ≠ "" ∧
    respond "alpha" 50 "q" 0 (initializeSession none) =
      (initializeSession none,
       Except.error "No active session. Initialize a topic first.") :=
  ⟨rfl, by decide,
   (submit_answer_no_session_fails_fast "alpha" "q" 50 0
     (initializeSession none) rfl (by decide)).1⟩

/-- C10: question-generate zeroes the depth while leaving the recorded
answers alone, so with at least one answer present it breaks the
depth-equals-answer-count equality that every successful submit-answer
preserves. -/
theorem generate_breaks_depth_answer_equality :
    (∀ (t q : String) (now : Nat) (s : SocraticState), t ≠ "" →
      (generateQuestion t q now s).1.questionDepth = 0 ∧
      (generateQuestion t q now s).1.userAnswers = s.userAnswers ∧
      (1 ≤ s.userAnswers.length →
        (generateQuestion t q now s).1.questionDepth ≠
          (generateQuestion t q now s).1.userAnswers.length)) ∧
    (∀ (a q : String) (c : Int) (now : Nat) (s : SocraticState),
      ¬ a = "" → topicFalsy s.topic = false →
      s.questionDepth = s.userAnswers.length →
      (respond a c q now s).1.questionDepth =
        (respond a c q now s).1.userAnswers.length) := by
  constructor
  · intro t q now s ht
    have h1 : (generateQuestion t q now s).1.questionDepth = 0 := by
      unfold generateQuestion
      rw [if_neg ht]
      rfl
    have h2 : (generateQuestion t q now s).1.userAnswers = s.userAnswers := by
      unfold generateQuestion
      rw [if_neg ht]
      rfl
    refine ⟨h1, h2, fun hlen => ?_⟩
    rw [h1, h2]
    omega
  · intro a q c now s ha ht heq
    rw [respond_ok a q c now s ha ht, respondCore_fst_questionDepth,
      respondCore_fst_userAnswers]
    simp [heq]

/-- Witness for C10: after one answered question, question-generate yields
depth 0 against one stored answer. -/
theorem generate_breaks_depth_answer_equality_witness :
    ("math" : String) ≠ "" ∧ 1 ≤ afterOneAnswer.userAnswers.length ∧
    (generateQuestion "math" "q2" 0 afterOneAnswer).1.questionDepth ≠
      (generateQuestion "math" "q2" 0 afterOneAnswer).1.userAnswers.length :=
  ⟨by decide, by decide,
   (generate_breaks_depth_answer_equality.1 "math" "q2" 0 afterOneAnswer
     (by decide)).2.2 (by decide)⟩

end Socratix
